import Mathlib

/-!
Shallow embedding of `supportal/app/authentication_backend.py`: the Cognito
JWT authentication backend (bearer-token extraction, JWKS key store,
token verification, claim policy, principal resolution and the
authorization gate with its `user_logged_in` signal).

Python values that flow through the code (JWT claims, JWKS payloads,
cache entries) are modelled by `JsonValue`, with Python truthiness and
Python `==`/`str()` made explicit.  Cryptography is symbolic: a token
carries a predicate saying which JWK verifies its signature.  All
`jwt.exceptions.PyJWTError` failure modes are observationally collapsed
(the source catches them uniformly and re-raises one generic error).
-/

namespace SupportalAuth

/-- A Python/JSON value as it appears in decoded JWT claim sets and JWKS
payloads.  Objects are association lists (Python dicts preserve insertion
order; keys are unique in values parsed from JSON). -/
inductive JsonValue where
  | null
  | bool (b : Bool)
  | num (n : Int)
  | str (s : String)
  | arr (l : List JsonValue)
  | obj (fields : List (String × JsonValue))

/-- Python truthiness (`bool(v)`): `None`/`False`/`0`/`""`/`[]`/`{}` are falsy. -/
def JsonValue.truthy : JsonValue → Bool
  | .null => false
  | .bool b => b
  | .num n => !(n == 0)
  | .str s => !s.isEmpty
  | .arr l => !l.isEmpty
  | .obj fields => !fields.isEmpty

mutual
/-- Python `==` on JSON-shaped values.  `True == 1` and `False == 0` hold in
Python; dict equality is modelled as ordered association-list equality
(keys of JSON-parsed dicts keep their serialization order). -/
def pyEq : JsonValue → JsonValue → Bool
  | .null, .null => true
  | .bool a, .bool b => a == b
  | .bool a, .num n => (if a then (1 : Int) else 0) == n
  | .num n, .bool a => n == (if a then (1 : Int) else 0)
  | .num a, .num b => a == b
  | .str a, .str b => a == b
  | .arr a, .arr b => pyEqList a b
  | .obj a, .obj b => pyEqFields a b
  | _, _ => false

def pyEqList : List JsonValue → List JsonValue → Bool
  | [], [] => true
  | a :: as', b :: bs' => pyEq a b && pyEqList as' bs'
  | _, _ => false

def pyEqFields : List (String × JsonValue) → List (String × JsonValue) → Bool
  | [], [] => true
  | (k, v) :: as', (k2, v2) :: bs' => k == k2 && pyEq v v2 && pyEqFields as' bs'
  | _, _ => false
end

mutual
/-- Python `repr()` restricted to JSON-shaped values (string escaping inside
`repr` of strings is not modelled; no claim depends on it). -/
def pyRepr : JsonValue → String
  | .null => "None"
  | .bool true => "True"
  | .bool false => "False"
  | .num n => toString n
  | .str s => "'" ++ s ++ "'"
  | .arr l => "[" ++ pyReprList l ++ "]"
  | .obj fields => "\x7b" ++ pyReprFields fields ++ "\x7d"

def pyReprList : List JsonValue → String
  | [] => ""
  | [v] => pyRepr v
  | v :: rest => pyRepr v ++ ", " ++ pyReprList rest

def pyReprFields : List (String × JsonValue) → String
  | [] => ""
  | [(k, v)] => "'" ++ k ++ "': " ++ pyRepr v
  | (k, v) :: rest => "'" ++ k ++ "': " ++ pyRepr v ++ ", " ++ pyReprFields rest
end

/-- Python `str()` on JSON-shaped values, as used by f-string interpolation. -/
def pyStr : JsonValue → String
  | .null => "None"
  | .bool true => "True"
  | .bool false => "False"
  | .num n => toString n
  | .str s => s
  | .arr l => "[" ++ pyReprList l ++ "]"
  | .obj fields => "\x7b" ++ pyReprFields fields ++ "\x7d"

/-- `str()` of a value that may be absent (`dict.get` returned `None`). -/
def pyStrOpt : Option JsonValue → String
  | none => "None"
  | some v => pyStr v

/-- `d.get(key)` on a dict modelled as an association list. -/
def lookupJson : List (String × JsonValue) → String → Option JsonValue
  | [], _ => none
  | (k, v) :: rest, key => if k == key then some v else lookupJson rest key

/-- Truthiness of a `dict.get` result (`None` for a missing key is falsy). -/
def optTruthy : Option JsonValue → Bool
  | none => false
  | some v => v.truthy

/-- Python `==` between a possibly-absent value and a string literal/setting
(`None == "s"` is `False`). -/
def optEqStr : Option JsonValue → String → Bool
  | none, _ => false
  | some v, s => pyEq v (.str s)

/-- The Django settings consumed by the backend. -/
structure Settings where
  cognitoUserPoolUrl : String
  cognitoUserLoginClientId : String

/-- Exceptions that can escape the backend's functions.
`authFailed` is `rest_framework`'s `AuthenticationFailed` with its detail
message; `http` is `requests.HTTPError` from `raise_for_status`; `exc` is a
plain `Exception`; `keyErr`/`typeErr` are Python `KeyError`/`TypeError`
escaping from dynamic subscripting. -/
inductive VErr where
  | authFailed (msg : String)
  | http
  | exc (msg : String)
  | keyErr (key : String)
  | typeErr
deriving DecidableEq

/-- State of the key store: the module-level memo `__COGNITO_USER_POOL_JWKS`
and the shared cache entry under `"cognito_user_pool_jwks"` (`none` = cache
miss). -/
structure KeyStoreState where
  memo : Option JsonValue
  cache : Option JsonValue

/-- Result of `get_jwks`: the returned payload or escaping exception, the
key-store state afterwards, and how many upstream HTTP fetches were
performed (0 or 1). -/
structure GetJwksResult where
  result : Except VErr JsonValue
  state : KeyStoreState
  fetches : Nat

/-- `get_jwks()` (lines 103-119).  `http` is the outcome the HTTP client
would produce for `GET <pool-url>/.well-known/jwks.json`: `.error ()` for a
network failure or non-2xx status (surfaced by `raise_for_status`), `.ok
payload` for the parsed JSON body. -/
def get_jwks (http : Except Unit JsonValue) (st : KeyStoreState) : GetJwksResult :=
  if optTruthy st.memo = false then
    match st.cache with
    | some cachedVal =>
      -- `cached_val is not None`: adopt it as the memo, then re-check truthiness
      if cachedVal.truthy = false then
        ⟨.error (.exc "We did not get any JWKs from Cognito."), ⟨some cachedVal, st.cache⟩, 0⟩
      else
        ⟨.ok cachedVal, ⟨some cachedVal, st.cache⟩, 0⟩
    | none =>
      match http with
      | .error _ => ⟨.error .http, st, 1⟩
      | .ok payload =>
        if payload.truthy = false then
          ⟨.error (.exc "We did not get any JWKs from Cognito."), ⟨some payload, some payload⟩, 1⟩
        else
          ⟨.ok payload, ⟨some payload, some payload⟩, 1⟩
  else
    ⟨.ok (st.memo.getD .null), st, 0⟩

/-- A bearer token after parsing, with symbolic cryptography.  `headerOk` /
`payloadOk`: the corresponding JWT segment parses (else PyJWT raises
`DecodeError`); `kid`/`alg` are `header.get(...)` on the unverified header;
`claims` is the payload; `sigValidFor jwk` says whether the RS256 signature
verifies under the public key obtained from the given JWK (a JWK that
`RSAAlgorithm.from_jwk` rejects verifies nothing: `from_jwk`'s
`InvalidKeyError` and a signature mismatch are both `PyJWTError`s and are
observationally identical downstream). -/
structure Token where
  headerOk : Bool
  payloadOk : Bool
  kid : Option JsonValue
  alg : Option JsonValue
  claims : List (String × JsonValue)
  sigValidFor : JsonValue → Bool

/-- `exp` claim validation under `verify_exp` + `require_exp`: the claim must
be present and numeric, and not in the past.  (Any PyJWT failure here
collapses to the same generic error.) -/
def expOk (claims : List (String × JsonValue)) (now : Int) : Bool :=
  match lookupJson claims "exp" with
  | some (.num e) => decide (now ≤ e)
  | _ => false

/-- `iat` claim validation under `verify_iat`: if present it must be numeric. -/
def iatOk (claims : List (String × JsonValue)) : Bool :=
  match lookupJson claims "iat" with
  | none => true
  | some (.num _) => true
  | some _ => false

/-- `iss` claim validation under `verify_iss` with an expected issuer:
present and equal to the configured value. -/
def issOk (claims : List (String × JsonValue)) (issuer : String) : Bool :=
  match lookupJson claims "iss" with
  | some v => pyEq v (.str issuer)
  | none => false

/-- `jwt.decode(token, key, issuer=..., algorithms=["RS256"], options=JWT_VERIFY_OPTS)`.
Every `PyJWTError` (malformed segment, bad signature, missing/invalid `exp`,
invalid `iat`, issuer mismatch) is modelled as `none`: the caller catches
them all uniformly, so which one fired is unobservable. -/
def jwtDecode (tok : Token) (jwk : JsonValue) (issuer : String) (now : Int) :
    Option (List (String × JsonValue)) :=
  if tok.headerOk = false then none
  else if tok.payloadOk = false then none
  else if tok.sigValidFor jwk = false then none
  else if expOk tok.claims now = false then none
  else if iatOk tok.claims = false then none
  else if issOk tok.claims issuer = false then none
  else some tok.claims

/-- `jwks["keys"]` followed by the iteration the list comprehension performs
over it.  A non-dict payload or a non-iterable / wrongly-typed `keys`
value raises `TypeError`; a dict without `"keys"` raises `KeyError`.
Iterating a nonempty string or dict yields elements whose later
subscripting with `"kid"` raises `TypeError`; iterating an empty one yields
no elements at all. -/
def jwksKeysList (jwks : JsonValue) : Except VErr (List JsonValue) :=
  match jwks with
  | .obj fields =>
    match lookupJson fields "keys" with
    | none => .error (.keyErr "keys")
    | some (.arr ks) => .ok ks
    | some (.str s) => if s.isEmpty then .ok [] else .error .typeErr
    | some (.obj gs) => if gs.isEmpty then .ok [] else .error .typeErr
    | some _ => .error .typeErr
  | _ => .error .typeErr

/-- The list comprehension `[k for k in keys if k["kid"] == key_id]`:
evaluated left to right, aborting at the first `KeyError`/`TypeError`. -/
def selectKeys (ks : List JsonValue) (keyId : JsonValue) : Except VErr (List JsonValue) :=
  match ks with
  | [] => .ok []
  | k :: rest =>
    match k with
    | .obj fields =>
      match lookupJson fields "kid" with
      | none => .error (.keyErr "kid")
      | some v =>
        match selectKeys rest keyId with
        | .error e => .error e
        | .ok tail => if pyEq v keyId then .ok (k :: tail) else .ok tail
    | _ => .error .typeErr

/-- Outcome of `_get_public_key`: a `PyJWTError` was raised (and will be
caught by `validate_jwt`), a non-PyJWT exception was raised (and will
propagate with its own message), or a JWK was found. -/
inductive KeyLookup where
  | pyjwtFail
  | raised (e : VErr)
  | found (jwk : JsonValue)

/-- `_get_public_key(token, jwks)` (lines 159-179).  `jwt.get_unverified_header`
raises `DecodeError` (a `PyJWTError`) on a malformed token; then the `kid`
and `alg` header checks raise `AuthenticationFailed` with cause-specific
messages; then the key is selected by `kid`, an empty selection raising
`AuthenticationFailed("Forbidden")` via the caught `IndexError`.  The found
JWK stands for `RSAAlgorithm.from_jwk(json.dumps(key))`. -/
def _get_public_key (tok : Token) (jwks : JsonValue) : KeyLookup :=
  if tok.headerOk = false then .pyjwtFail
  else
    match tok.kid with
    | none => .raised (.authFailed "Invalid token missing 'kid' header")
    | some kv =>
      if kv.truthy = false then .raised (.authFailed "Invalid token missing 'kid' header")
      else if optEqStr tok.alg "RS256" = false then
        .raised (.authFailed ("Unsupported 'alg' header " ++ pyStrOpt tok.alg))
      else
        match jwksKeysList jwks with
        | .error e => .raised e
        | .ok ks =>
          match selectKeys ks kv with
          | .error e => .raised e
          | .ok [] => .raised (.authFailed "Forbidden")
          | .ok (k :: _) => .found k

/-- Result of `validate_jwt`: decoded claims or escaping exception, plus the
key-store state and fetch count from the `get_jwks()` call it performs. -/
structure VJResult where
  result : Except VErr (List (String × JsonValue))
  state : KeyStoreState
  fetches : Nat

/-- `validate_jwt(token)` (lines 122-137).  `get_jwks()` runs outside the
`try`; `_get_public_key` runs inside it, so its `PyJWTError`s collapse to
`AuthenticationFailed("Invalid token")` while its `AuthenticationFailed` /
`KeyError` / `TypeError` propagate unchanged; every `PyJWTError` from
`jwt.decode` also collapses to the same generic message. -/
def validate_jwt (settings : Settings) (http : Except Unit JsonValue) (now : Int)
    (st : KeyStoreState) (tok : Token) : VJResult :=
  match get_jwks http st with
  | ⟨.error e, s, n⟩ => ⟨.error e, s, n⟩
  | ⟨.ok jwks, s, n⟩ =>
    match _get_public_key tok jwks with
    | .pyjwtFail => ⟨.error (.authFailed "Invalid token"), s, n⟩
    | .raised e => ⟨.error e, s, n⟩
    | .found jwk =>
      match jwtDecode tok jwk settings.cognitoUserPoolUrl now with
      | none => ⟨.error (.authFailed "Invalid token"), s, n⟩
      | some claims => ⟨.ok claims, s, n⟩

/-- A row of the user datastore.  `impersonated_user` is the nullable
foreign key to another user; the fields of the referenced user that the
backend reads (`id`, and the row itself as the returned principal) are
nested here. -/
inductive UserObj where
  | mk (id : Int) (is_active : Bool) (is_admin : Bool) (impersonated_user : Option UserObj)

def UserObj.id : UserObj → Int
  | .mk i _ _ _ => i

def UserObj.is_active : UserObj → Bool
  | .mk _ a _ _ => a

def UserObj.is_admin : UserObj → Bool
  | .mk _ _ a _ => a

def UserObj.impersonated_user : UserObj → Option UserObj
  | .mk _ _ _ u => u

/-- An API-key record; the backend only reads its owning `user`. -/
structure APIKey where
  user : UserObj

/-- `Model.objects.get(...)` on a datastore keyed by a Python value
(`get_by_natural_key(username)` / `APIKey.objects.get(pk=client_id)`):
first row whose key compares `==` to the probe, `none` for `DoesNotExist`. -/
def pyLookup {α : Type} : List (JsonValue × α) → JsonValue → Option α
  | [], _ => none
  | (k, v) :: rest, key => if pyEq k key then some v else pyLookup rest key

/-- An inbound HTTP request, restricted to what the backend reads: the
`Authorization` header (absent or its value). -/
structure Request where
  authorization : Option String

/-- `rest_framework.authentication.get_authorization_header`: the header's
value, or the empty byte string when the header is absent. -/
def get_authorization_header (req : Request) : String :=
  req.authorization.getD ""

/-- ASCII lowercasing of one character, as `bytes.lower` does byte-wise. -/
def pyLowerChar (c : Char) : Char :=
  if c.isUpper then Char.ofNat (c.toNat + 32) else c

/-- Python `bytes.lower()`: ASCII-only lowercasing. -/
def pyLower (s : String) : String :=
  String.mk (s.data.map pyLowerChar)

/-- Accumulator pass over the characters for `pySplit`: `acc` holds the
current fragment reversed. -/
def pySplitAux : List Char → List Char → List String
  | [], [] => []
  | [], acc => [String.mk acc.reverse]
  | c :: cs, acc =>
    if c.isWhitespace then
      match acc with
      | [] => pySplitAux cs []
      | _ :: _ => String.mk acc.reverse :: pySplitAux cs []
    else
      pySplitAux cs (c :: acc)

/-- Python `bytes.split()` with no separator: split on whitespace runs,
discarding empty fragments. -/
def pySplit (s : String) : List String :=
  pySplitAux s.data []

/-- `_get_auth_token(request, auth_type)` (lines 145-156): `None` for an
absent header (zero segments); `AuthenticationFailed` naming the expected
format for a wrong segment count or a scheme whose lowercasing differs
from `auth_type`; otherwise the second segment. -/
def _get_auth_token (req : Request) (auth_type : String) : Except VErr (Option String) :=
  match pySplit (get_authorization_header req) with
  | [] => .ok none
  | [a, b] =>
    if pyLower a == auth_type then .ok (some b)
    else .error (.authFailed ("Invalid auth header. Format should be '" ++ auth_type ++ " <token>'"))
  | _ => .error (.authFailed ("Invalid auth header. Format should be '" ++ auth_type ++ " <token>'"))

/-- `_get_bearer_token(request)` (lines 140-142). -/
def _get_bearer_token (req : Request) : Except VErr (Option String) :=
  _get_auth_token req "bearer"

/-- `_validate_id_token_data(token_data)` (lines 182-186): the `aud` claim
must be truthy and `==` the configured login client id. -/
def _validate_id_token_data (settings : Settings) (td : List (String × JsonValue)) :
    Except VErr Unit :=
  if !optTruthy (lookupJson td "aud")
      || !optEqStr (lookupJson td "aud") settings.cognitoUserLoginClientId then
    .error (.authFailed "Invalid id token")
  else .ok ()

/-- Everything `authenticate` consumes besides the request and the mutable
key-store state: settings, the HTTP world, the clock, the two datastores,
and the (symbolic) parse from a raw bearer string to a `Token`. -/
structure Env where
  settings : Settings
  http : Except Unit JsonValue
  now : Int
  users : List (JsonValue × UserObj)
  apiKeys : List (JsonValue × APIKey)
  parseToken : String → Token

/-- Observable outcome of one `authenticate` call: the returned value
(`.ok none` is the pass-through "no authentication attempted"), the
key-store state afterwards, the upstream fetch count, the `user_logged_in`
signal emissions in order with their `user` argument, the user records
created in the datastore, and (instrumentation) the principal resolved
before the authorization gate ran. -/
structure AuthOutcome where
  result : Except VErr (Option (UserObj × List (String × JsonValue)))
  state : KeyStoreState
  fetches : Nat
  logins : List UserObj
  created : List UserObj
  resolved : Option UserObj

/-- An exception escaping `authenticate` before any principal was resolved. -/
def mkErr (e : VErr) (st : KeyStoreState) (n : Nat) : AuthOutcome :=
  ⟨.error e, st, n, [], [], none⟩

/-- The condition of the impersonation branch (lines 84-88):
`user.is_admin and user.impersonated_user is not None and user.id != user.impersonated_user.id`. -/
def impersonationApplies (u : UserObj) : Bool :=
  u.is_admin && (match u.impersonated_user with
    | some iu => !(u.id == iu.id)
    | none => false)

/-- Lines 80-93 of `authenticate`: the authorization gate applied to the
resolved principal — deactivation check, impersonation substitution
(silent), or the `user_logged_in` signal plus the principal itself. -/
def authenticateResolved (user : UserObj) (td : List (String × JsonValue))
    (st : KeyStoreState) (n : Nat) : AuthOutcome :=
  if user.is_active = false then
    ⟨.error (.authFailed "User deactivated"), st, n, [], [], some user⟩
  else
    match user.impersonated_user with
    | some iu =>
      if user.is_admin && !(user.id == iu.id) then
        -- intentionally no user_logged_in signal when impersonating
        ⟨.ok (some (iu, td)), st, n, [], [], some user⟩
      else
        ⟨.ok (some (user, td)), st, n, [user], [], some user⟩
    | none =>
      ⟨.ok (some (user, td)), st, n, [user], [], some user⟩

/-- Lines 55-78 of `authenticate`: branch on `token_use`, apply the claim
policy, and resolve the principal from the matching datastore. -/
def authWithClaims (env : Env) (s : KeyStoreState) (n : Nat)
    (td : List (String × JsonValue)) : AuthOutcome :=
  if optEqStr (lookupJson td "token_use") "id" then
    match _validate_id_token_data env.settings td with
    | .error e => mkErr e s n
    | .ok _ =>
      if !optTruthy (lookupJson td "email_verified")
          || !optTruthy (lookupJson td "email")
          || !optTruthy (lookupJson td "cognito:username") then
        mkErr (.authFailed "Invalid user state") s n
      else
        match pyLookup env.users ((lookupJson td "cognito:username").getD .null) with
        | none => mkErr (.authFailed "User does not exist") s n
        | some user => authenticateResolved user td s n
  else if optEqStr (lookupJson td "token_use") "access" then
    if optTruthy (lookupJson td "client_id") = false then
      mkErr (.authFailed "Invalid access token") s n
    else
      match pyLookup env.apiKeys ((lookupJson td "client_id").getD .null) with
      | none => mkErr (.authFailed "Invalid access token") s n
      | some key => authenticateResolved key.user td s n
  else
    mkErr (.authFailed ("Unknown token_use: " ++ pyStrOpt (lookupJson td "token_use"))) s n

/-- `authenticate` after a bearer token string was extracted: validate the
JWT and continue with the decoded claims. -/
def authWithToken (env : Env) (st : KeyStoreState) (tok : Token) : AuthOutcome :=
  match validate_jwt env.settings env.http env.now st tok with
  | ⟨.error e, s, n⟩ => mkErr e s n
  | ⟨.ok td, s, n⟩ => authWithClaims env s n td

/-- `CognitoJWTAuthentication.authenticate(self, request)` (lines 34-93). -/
def authenticate (env : Env) (st : KeyStoreState) (req : Request) : AuthOutcome :=
  match _get_bearer_token req with
  | .error e => mkErr e st 0
  | .ok none => ⟨.ok none, st, 0, [], [], none⟩
  | .ok (some tokStr) => authWithToken env st (env.parseToken tokStr)

/-- `CognitoJWTAuthentication.authenticate_header(self, request)` (lines 95-100). -/
def authenticate_header (_req : Request) : String :=
  "Bearer: realm=api"

/-! ### Concrete fixtures for witnesses and counterexamples -/

def fxSettings : Settings := ⟨"https://pool", "login-client"⟩

/-- A JWK with kid `k1`, as fetched from the pool's jwks endpoint. -/
def fxJwk : JsonValue := .obj [("kid", .str "k1"), ("alg", .str "RS256")]

def fxJwks : JsonValue := .obj [("keys", .arr [fxJwk])]

/-- Key-store state with the memo already populated. -/
def fxSt : KeyStoreState := ⟨some fxJwks, none⟩

def fxBob : UserObj := .mk 7 true false none

def fxDave : UserObj := .mk 2 false false none

def fxCarol : UserObj := .mk 1 true true (some fxDave)

def fxAlice : UserObj := .mk 3 true false none

def fxTdAccess : List (String × JsonValue) :=
  [("token_use", .str "access"), ("client_id", .str "key123"),
   ("iss", .str "https://pool"), ("exp", .num 100)]

def fxTokAccess : Token :=
  ⟨true, true, some (.str "k1"), some (.str "RS256"), fxTdAccess, fun _ => true⟩

def fxEnvAccess : Env :=
  ⟨fxSettings, .ok fxJwks, 0, [], [(.str "key123", ⟨fxBob⟩)], fun _ => fxTokAccess⟩

def fxReq : Request := ⟨some "bearer t"⟩

def fxTdCarol : List (String × JsonValue) :=
  [("token_use", .str "id"), ("aud", .str "login-client"),
   ("email_verified", .bool true), ("email", .str "c@x.com"),
   ("cognito:username", .str "carol"),
   ("iss", .str "https://pool"), ("exp", .num 100)]

def fxTokCarol : Token :=
  ⟨true, true, some (.str "k1"), some (.str "RS256"), fxTdCarol, fun _ => true⟩

def fxEnvCarol : Env :=
  ⟨fxSettings, .ok fxJwks, 0, [(.str "carol", fxCarol)], [], fun _ => fxTokCarol⟩

def fxTdAliceEV : List (String × JsonValue) :=
  [("token_use", .str "id"), ("aud", .str "login-client"),
   ("email_verified", .str "false"), ("email", .str "a@b.com"),
   ("cognito:username", .str "alice"),
   ("iss", .str "https://pool"), ("exp", .num 100)]

def fxTokAliceEV : Token :=
  ⟨true, true, some (.str "k1"), some (.str "RS256"), fxTdAliceEV, fun _ => true⟩

def fxEnvAlice : Env :=
  ⟨fxSettings, .ok fxJwks, 0, [(.str "alice", fxAlice)], [], fun _ => fxTokAliceEV⟩

/-- A token whose (parseable) header has no `kid` but whose signature would
verify under any key. -/
def fxTokNoKid : Token :=
  ⟨true, true, none, some (.str "RS256"), fxTdAccess, fun _ => true⟩

/-- A well-keyed token that is expired (`exp` in the past). -/
def fxTokExpired : Token :=
  ⟨true, true, some (.str "k1"), some (.str "RS256"),
   [("token_use", .str "access"), ("client_id", .str "key123"),
    ("iss", .str "https://pool"), ("exp", .num (-5))],
   fun _ => true⟩

/-- A JWKS payload that is a nonempty JSON object whose `keys` list is empty. -/
def fxEmptyKeys : JsonValue := .obj [("keys", .arr [])]

/-! ### Structural lemmas about the authorization gate -/

/-- Every outcome of `authWithClaims` is an error passed through unchanged or
the gate applied to some resolved principal with the same claims. -/
lemma authWithClaims_shape (env : Env) (s : KeyStoreState) (n : Nat)
    (td : List (String × JsonValue)) :
    (∃ e, authWithClaims env s n td = mkErr e s n) ∨
    (∃ u, authWithClaims env s n td = authenticateResolved u td s n) := by
  unfold authWithClaims
  repeat' split
  all_goals first
    | exact Or.inl ⟨_, rfl⟩
    | exact Or.inr ⟨_, rfl⟩

/-- Every outcome of `authenticate` is the pass-through, an error, or the
gate applied to a resolved principal. -/
lemma authenticate_shape (env : Env) (st : KeyStoreState) (req : Request) :
    authenticate env st req = ⟨.ok none, st, 0, [], [], none⟩ ∨
    (∃ e s n, authenticate env st req = mkErr e s n) ∨
    (∃ u td s n, authenticate env st req = authenticateResolved u td s n) := by
  cases hb : _get_bearer_token req with
  | error e => exact Or.inr (Or.inl ⟨e, st, 0, by simp [authenticate, hb]⟩)
  | ok o =>
    cases o with
    | none => exact Or.inl (by simp [authenticate, hb])
    | some tokStr =>
      rcases hv : validate_jwt env.settings env.http env.now st (env.parseToken tokStr)
        with ⟨res, s, n⟩
      cases res with
      | error e =>
        exact Or.inr (Or.inl ⟨e, s, n, by simp [authenticate, authWithToken, hb, hv]⟩)
      | ok td =>
        rcases authWithClaims_shape env s n td with ⟨e, h⟩ | ⟨u, h⟩
        · exact Or.inr (Or.inl ⟨e, s, n, by simp only [authenticate, authWithToken, hb, hv, h]⟩)
        · exact Or.inr (Or.inr ⟨u, td, s, n, by simp only [authenticate, authWithToken, hb, hv, h]⟩)

/-- The signal emissions of the gate, as a function of its result and the
resolved principal. -/
lemma authenticateResolved_logins (u : UserObj) (td : List (String × JsonValue))
    (s : KeyStoreState) (n : Nat) :
    (authenticateResolved u td s n).logins =
      match (authenticateResolved u td s n).result, (authenticateResolved u td s n).resolved with
      | .ok (some _), some w => if impersonationApplies w then [] else [w]
      | _, _ => [] := by
  unfold authenticateResolved
  split
  · rfl
  · split
    next iu heq =>
      split
      next hcond => simp [impersonationApplies, heq, hcond]
      next hcond =>
        have hc : ¬(u.is_admin = true ∧ ¬u.id = iu.id) := by simpa using hcond
        simp [impersonationApplies, heq, hc]
    next heq => simp [impersonationApplies, heq]

/-- The gate always records the principal it was given as `resolved`. -/
lemma authenticateResolved_resolved (u : UserObj) (td : List (String × JsonValue))
    (s : KeyStoreState) (n : Nat) :
    (authenticateResolved u td s n).resolved = some u := by
  unfold authenticateResolved
  repeat' split
  all_goals rfl

/-- On a success the gate's principal is active, and determines the
effective principal: itself outside the impersonation branch, its
impersonation target inside it; the claims pass through unchanged. -/
lemma authenticateResolved_active (u : UserObj) (td : List (String × JsonValue))
    (s : KeyStoreState) (n : Nat) (u' : UserObj) (td' : List (String × JsonValue))
    (h : (authenticateResolved u td s n).result = .ok (some (u', td'))) :
    td' = td ∧ u.is_active = true ∧
    (impersonationApplies u = false → u' = u) ∧
    (impersonationApplies u = true → u.impersonated_user = some u') := by
  unfold authenticateResolved at h
  split at h
  · exact absurd h (by simp)
  next hact =>
    have hact' : u.is_active = true := by simpa using hact
    split at h
    next iu heq =>
      split at h
      next hcond =>
        simp only [Except.ok.injEq, Option.some.injEq, Prod.mk.injEq] at h
        obtain ⟨h1, h2⟩ := h
        have himp : impersonationApplies u = true := by
          simp [impersonationApplies, heq, hcond]
        exact ⟨h2.symm, hact', fun hf => absurd himp (by simp [hf]),
          fun _ => by rw [heq, h1]⟩
      next hcond =>
        simp only [Except.ok.injEq, Option.some.injEq, Prod.mk.injEq] at h
        obtain ⟨h1, h2⟩ := h
        have hc : ¬(u.is_admin = true ∧ ¬u.id = iu.id) := by simpa using hcond
        have himp : impersonationApplies u = false := by
          simp only [impersonationApplies, heq]
          simp
          tauto
        exact ⟨h2.symm, hact', fun _ => h1.symm, fun ht => absurd himp (by simp [ht])⟩
    next heq =>
      simp only [Except.ok.injEq, Option.some.injEq, Prod.mk.injEq] at h
      obtain ⟨h1, h2⟩ := h
      have himp : impersonationApplies u = false := by
        simp [impersonationApplies, heq]
      exact ⟨h2.symm, hact', fun _ => h1.symm, fun ht => absurd himp (by simp [ht])⟩

/-! ### Claims C1 and C2 -/

/-- C1 counterexample: a successful access-token authentication (claims with
`token_use = "access"` resolved through the API-key record of active
non-admin user bob) does emit the `user_logged_in` signal, contradicting
"never emitted for access-token authentications". -/
theorem login_signal_fired_for_access_token_cx :
    lookupJson fxTdAccess "token_use" = some (.str "access") ∧
    (authenticate fxEnvAccess fxSt fxReq).result = .ok (some (fxBob, fxTdAccess)) ∧
    (authenticate fxEnvAccess fxSt fxReq).logins = [fxBob] :=
  ⟨rfl, rfl, rfl⟩

/-- C1 (amended): the `user_logged_in` signal is emitted exactly once, with
the resolved principal, for every successful authentication — identity-token
or access-token alike — that is not an impersonation substitution; it is
never emitted on the impersonation path, on failures, or on the
pass-through. -/
theorem authenticate_login_signal (env : Env) (st : KeyStoreState) (req : Request) :
    (authenticate env st req).logins =
      match (authenticate env st req).result, (authenticate env st req).resolved with
      | .ok (some _), some w => if impersonationApplies w then [] else [w]
      | _, _ => [] := by
  rcases authenticate_shape env st req with h | ⟨e, s, n, h⟩ | ⟨u, td, s, n, h⟩ <;> rw [h] <;>
    first
      | rfl
      | exact authenticateResolved_logins _ _ _ _

/-- C2 counterexample: an active admin (carol) impersonating a deactivated
user (dave) authenticates successfully and the returned effective principal
is the deactivated dave — the impersonated user's `is_active` is never
checked. -/
theorem inactive_effective_principal_cx :
    (authenticate fxEnvCarol fxSt fxReq).result = .ok (some (fxDave, fxTdCarol)) ∧
    fxDave.is_active = false :=
  ⟨rfl, rfl⟩

/-- C2 (amended): on every success the *resolved* principal is active (a
deactivated resolved principal always fails with "User deactivated"), and
outside the impersonation substitution the returned effective principal is
that active resolved principal; on the impersonation path the effective
principal is the admin's impersonation target, whose `is_active` is not
checked. -/
theorem authenticate_active_invariant (env : Env) (st : KeyStoreState) (req : Request)
    (u : UserObj) (td : List (String × JsonValue))
    (h : (authenticate env st req).result = .ok (some (u, td))) :
    ∃ w, (authenticate env st req).resolved = some w ∧ w.is_active = true ∧
      (impersonationApplies w = false → u = w ∧ u.is_active = true) ∧
      (impersonationApplies w = true → w.impersonated_user = some u) := by
  rcases authenticate_shape env st req with hs | ⟨e, s, n, hs⟩ | ⟨w, td0, s, n, hs⟩ <;>
    rw [hs] at h ⊢
  · exact absurd h (by simp)
  · exact absurd h (by simp [mkErr])
  · obtain ⟨h1, h2, h3, h4⟩ := authenticateResolved_active w td0 s n u td h
    exact ⟨w, authenticateResolved_resolved w td0 s n, h2,
      fun hf => ⟨h3 hf, by rw [h3 hf]; exact h2⟩, h4⟩

/-- Witness for C2's amended theorem at a concrete successful call. -/
theorem authenticate_active_invariant_witness :
    ∃ w, (authenticate fxEnvAccess fxSt fxReq).resolved = some w ∧ w.is_active = true ∧
      (impersonationApplies w = false → fxBob = w ∧ fxBob.is_active = true) ∧
      (impersonationApplies w = true → w.impersonated_user = some fxBob) :=
  authenticate_active_invariant fxEnvAccess fxSt fxReq fxBob fxTdAccess rfl

/-! ### Claim C3 -/

/-- C3 counterexample: a token with no `kid` in its header fails with
`AuthenticationFailed("Invalid token missing 'kid' header")` while an
expired token fails with `AuthenticationFailed("Invalid token")` — two
observably different error values for two verification-failure causes, so
the caller can tell which check failed. -/
theorem distinct_verification_errors_cx :
    (validate_jwt fxSettings (.ok fxJwks) 0 fxSt fxTokNoKid).result =
      .error (.authFailed "Invalid token missing 'kid' header") ∧
    (validate_jwt fxSettings (.ok fxJwks) 0 fxSt fxTokExpired).result =
      .error (.authFailed "Invalid token") ∧
    VErr.authFailed "Invalid token missing 'kid' header" ≠ VErr.authFailed "Invalid token" :=
  ⟨rfl, rfl, by decide⟩

/-- C3 (amended): the failures raised inside the `jwt.decode` call (malformed
token, signature mismatch, missing/expired `exp`, bad `iat`, issuer
mismatch — any `PyJWTError`) all surface as the single generic
`AuthenticationFailed("Invalid token")`; but the key-selection failures in
`_get_public_key` (missing `kid`, unsupported `alg`, `kid` not in the key
set) raise `AuthenticationFailed` with cause-specific messages that escape
the generic handler. -/
theorem decode_failures_single_generic_error (settings : Settings)
    (http : Except Unit JsonValue) (now : Int) (st : KeyStoreState) (tok : Token)
    (jwks : JsonValue) (s : KeyStoreState) (n : Nat) (jwk : JsonValue)
    (hjwks : get_jwks http st = ⟨.ok jwks, s, n⟩)
    (hkey : _get_public_key tok jwks = .found jwk)
    (hdec : jwtDecode tok jwk settings.cognitoUserPoolUrl now = none) :
    (validate_jwt settings http now st tok).result = .error (.authFailed "Invalid token") := by
  simp [validate_jwt, hjwks, hkey, hdec]

/-- Witness for C3's amended theorem: an expired token collapses to the
generic "Invalid token" error. -/
theorem decode_failures_single_generic_error_witness :
    (validate_jwt fxSettings (.ok fxJwks) 0 fxSt fxTokExpired).result =
      .error (.authFailed "Invalid token") :=
  decode_failures_single_generic_error fxSettings (.ok fxJwks) 0 fxSt fxTokExpired
    fxJwks fxSt 0 fxJwk rfl rfl rfl

/-! ### Claim C4 -/

/-- C4 counterexample: an identity token whose `email_verified` claim is the
*string* `"false"` (truthy in Python, but not the boolean `true`)
authenticates successfully, because the code only checks truthiness. -/
theorem email_verified_truthy_not_boolean_cx :
    lookupJson fxTdAliceEV "token_use" = some (.str "id") ∧
    lookupJson fxTdAliceEV "email_verified" = some (.str "false") ∧
    some (JsonValue.str "false") ≠ some (JsonValue.bool true) ∧
    (authenticate fxEnvAlice fxSt fxReq).result = .ok (some (fxAlice, fxTdAliceEV)) :=
  ⟨rfl, rfl, fun h => JsonValue.noConfusion (Option.some.inj h), rfl⟩

/-- On a success, `authWithClaims` passes the claims through unchanged, and
when the claims are an identity token every claim-policy check held:
truthy `aud` equal to the configured client id, truthy `email_verified`,
truthy `email`, truthy username. -/
lemma authWithClaims_ok_id_checks (env : Env) (s : KeyStoreState) (n : Nat)
    (td0 : List (String × JsonValue)) (u : UserObj) (td' : List (String × JsonValue))
    (h : (authWithClaims env s n td0).result = .ok (some (u, td'))) :
    td' = td0 ∧
    (optEqStr (lookupJson td0 "token_use") "id" = true →
      optTruthy (lookupJson td0 "aud") = true ∧
      optEqStr (lookupJson td0 "aud") env.settings.cognitoUserLoginClientId = true ∧
      optTruthy (lookupJson td0 "email_verified") = true ∧
      optTruthy (lookupJson td0 "email") = true ∧
      optTruthy (lookupJson td0 "cognito:username") = true) := by
  unfold authWithClaims at h
  split at h
  next hid =>
    split at h
    next e heq => exact absurd h (by simp [mkErr])
    next heq =>
      have haud : optTruthy (lookupJson td0 "aud") = true ∧
          optEqStr (lookupJson td0 "aud") env.settings.cognitoUserLoginClientId = true := by
        unfold _validate_id_token_data at heq
        split at heq
        · exact absurd heq (by simp)
        next hc => simpa using hc
      split at h
      next hc => exact absurd h (by simp [mkErr])
      next hc =>
        split at h
        next heq2 => exact absurd h (by simp [mkErr])
        next user heq2 =>
          obtain ⟨htd, _, _, _⟩ := authenticateResolved_active user td0 s n u td' h
          have hts : (optTruthy (lookupJson td0 "email_verified") = true ∧
              optTruthy (lookupJson td0 "email") = true) ∧
              optTruthy (lookupJson td0 "cognito:username") = true := by
            simpa using hc
          exact ⟨htd, fun _ => ⟨haud.1, haud.2, hts.1.1, hts.1.2, hts.2⟩⟩
  next hid =>
    split at h
    next =>
      split at h
      next => exact absurd h (by simp [mkErr])
      next =>
        split at h
        next => exact absurd h (by simp [mkErr])
        next key heq2 =>
          obtain ⟨htd, _, _, _⟩ := authenticateResolved_active key.user td0 s n u td' h
          exact ⟨htd, fun hi => absurd hi hid⟩
    next => exact absurd h (by simp [mkErr])

/-- C4 (amended): a successful authentication whose returned claims carry
`token_use == "id"` implies every identity-claim check passed as the code
performs it: the `aud` claim is truthy and `==` the configured login client
id, and `email_verified`, `email` and `cognito:username` are truthy — where
truthy is Python truthiness, not `email_verified == true` (any nonempty
string passes) and not string-specific non-emptiness. Absence or mismatch of
any of them makes authentication fail with no principal. -/
theorem id_token_success_requires_checks (env : Env) (st : KeyStoreState) (req : Request)
    (u : UserObj) (td : List (String × JsonValue))
    (h : (authenticate env st req).result = .ok (some (u, td)))
    (hid : optEqStr (lookupJson td "token_use") "id" = true) :
    optTruthy (lookupJson td "aud") = true ∧
    optEqStr (lookupJson td "aud") env.settings.cognitoUserLoginClientId = true ∧
    optTruthy (lookupJson td "email_verified") = true ∧
    optTruthy (lookupJson td "email") = true ∧
    optTruthy (lookupJson td "cognito:username") = true := by
  cases hb : _get_bearer_token req with
  | error e => exact absurd h (by simp [authenticate, hb, mkErr])
  | ok o =>
    cases o with
    | none => exact absurd h (by simp [authenticate, hb])
    | some ts =>
      simp only [authenticate, hb] at h
      rcases hv : validate_jwt env.settings env.http env.now st (env.parseToken ts)
        with ⟨res, s, n⟩
      cases res with
      | error e => exact absurd h (by simp [authWithToken, hv, mkErr])
      | ok td0 =>
        simp only [authWithToken, hv] at h
        obtain ⟨htd, hchecks⟩ := authWithClaims_ok_id_checks env s n td0 u td h
        subst htd
        exact hchecks hid

/-- Witness for C4's amended theorem at a successful identity-token call. -/
theorem id_token_success_requires_checks_witness :
    optTruthy (lookupJson fxTdCarol "aud") = true ∧
    optEqStr (lookupJson fxTdCarol "aud") fxEnvCarol.settings.cognitoUserLoginClientId = true ∧
    optTruthy (lookupJson fxTdCarol "email_verified") = true ∧
    optTruthy (lookupJson fxTdCarol "email") = true ∧
    optTruthy (lookupJson fxTdCarol "cognito:username") = true :=
  id_token_success_requires_checks fxEnvCarol fxSt fxReq fxDave fxTdCarol rfl rfl

/-! ### Claim C5 -/

/-- The gate never creates user records. -/
lemma authenticateResolved_created (u : UserObj) (td : List (String × JsonValue))
    (s : KeyStoreState) (n : Nat) :
    (authenticateResolved u td s n).created = [] := by
  unfold authenticateResolved
  repeat' split
  all_goals rfl

/-- An identity token for a user absent from the datastore. -/
def fxTdGhost : List (String × JsonValue) :=
  [("token_use", .str "id"), ("aud", .str "login-client"),
   ("email_verified", .bool true), ("email", .str "g@x.com"),
   ("cognito:username", .str "ghost"),
   ("iss", .str "https://pool"), ("exp", .num 100)]

def fxTokGhost : Token :=
  ⟨true, true, some (.str "k1"), some (.str "RS256"), fxTdGhost, fun _ => true⟩

def fxEnvGhost : Env :=
  ⟨fxSettings, .ok fxJwks, 0, [], [], fun _ => fxTokGhost⟩

/-- C5: on the identity-token path, a username that does not resolve in the
user datastore fails with "User does not exist", and no user record is
created — identity tokens are never auto-provisioned in this lookup path
(despite the function's docstring claiming otherwise). -/
theorem id_user_lookup_fails_closed (env : Env) (st : KeyStoreState) (req : Request)
    (ts : String) (td : List (String × JsonValue))
    (hb : _get_bearer_token req = .ok (some ts))
    (hv : (validate_jwt env.settings env.http env.now st (env.parseToken ts)).result = .ok td)
    (hid : optEqStr (lookupJson td "token_use") "id" = true)
    (hvalid : _validate_id_token_data env.settings td = .ok ())
    (hev : optTruthy (lookupJson td "email_verified") = true)
    (hem : optTruthy (lookupJson td "email") = true)
    (hun : optTruthy (lookupJson td "cognito:username") = true)
    (hlook : pyLookup env.users ((lookupJson td "cognito:username").getD .null) = none) :
    (authenticate env st req).result = .error (.authFailed "User does not exist") ∧
    (authenticate env st req).created = [] := by
  constructor
  · rcases hvj : validate_jwt env.settings env.http env.now st (env.parseToken ts)
      with ⟨res, s, n⟩
    rw [hvj] at hv
    simp only at hv
    subst hv
    simp [authenticate, hb, authWithToken, hvj, authWithClaims, hid, hvalid, hev, hem, hun,
      hlook, mkErr]
  · rcases authenticate_shape env st req with h | ⟨e, s, n, h⟩ | ⟨w, td0, s, n, h⟩ <;>
      rw [h] <;>
      first
        | rfl
        | exact authenticateResolved_created _ _ _ _

/-- Witness for C5 at a concrete unknown-user identity token. -/
theorem id_user_lookup_fails_closed_witness :
    (authenticate fxEnvGhost fxSt fxReq).result = .error (.authFailed "User does not exist") ∧
    (authenticate fxEnvGhost fxSt fxReq).created = [] :=
  id_user_lookup_fails_closed fxEnvGhost fxSt fxReq "t" fxTdGhost
    rfl rfl rfl rfl rfl rfl rfl rfl

/-! ### Claim C6 -/

/-- A token whose header declares an unsupported algorithm. -/
def fxTokBadAlg : Token :=
  ⟨true, true, some (.str "k1"), some (.str "RS257"), fxTdAccess, fun _ => true⟩

/-- C6: once the key set is available, a (parseable) token whose header lacks
a `kid` fails with the missing-kid `AuthenticationFailed`, and one whose
`alg` is not `RS256` fails with the unsupported-alg `AuthenticationFailed` —
each even when the signature would verify under every key, since the header
checks run before any signature verification. -/
theorem header_precheck_rejects (settings : Settings) (http : Except Unit JsonValue)
    (now : Int) (st : KeyStoreState) (tok : Token)
    (jwks : JsonValue) (s : KeyStoreState) (n : Nat)
    (hjwks : get_jwks http st = ⟨.ok jwks, s, n⟩)
    (hho : tok.headerOk = true)
    (hsig : ∀ k, tok.sigValidFor k = true) :
    (tok.kid = none →
      (validate_jwt settings http now st tok).result =
        .error (.authFailed "Invalid token missing 'kid' header")) ∧
    (∀ kv, tok.kid = some kv → kv.truthy = false →
      (validate_jwt settings http now st tok).result =
        .error (.authFailed "Invalid token missing 'kid' header")) ∧
    (∀ kv, tok.kid = some kv → kv.truthy = true → optEqStr tok.alg "RS256" = false →
      (validate_jwt settings http now st tok).result =
        .error (.authFailed ("Unsupported 'alg' header " ++ pyStrOpt tok.alg))) := by
  refine ⟨fun hkid => ?_, fun kv hkid hkv => ?_, fun kv hkid hkv halg => ?_⟩
  · simp [validate_jwt, hjwks, _get_public_key, hho, hkid]
  · simp [validate_jwt, hjwks, _get_public_key, hho, hkid, hkv]
  · simp [validate_jwt, hjwks, _get_public_key, hho, hkid, hkv, halg]

/-- Witness for C6: the missing-kid and bad-alg tokens both fail with their
respective header-check errors even though their signatures are valid for
every key. -/
theorem header_precheck_rejects_witness :
    (validate_jwt fxSettings (.ok fxJwks) 0 fxSt fxTokNoKid).result =
      .error (.authFailed "Invalid token missing 'kid' header") ∧
    (validate_jwt fxSettings (.ok fxJwks) 0 fxSt fxTokBadAlg).result =
      .error (.authFailed "Unsupported 'alg' header RS257") :=
  ⟨(header_precheck_rejects fxSettings (.ok fxJwks) 0 fxSt fxTokNoKid fxJwks fxSt 0
      rfl rfl (fun _ => rfl)).1 rfl,
   (header_precheck_rejects fxSettings (.ok fxJwks) 0 fxSt fxTokBadAlg fxJwks fxSt 0
      rfl rfl (fun _ => rfl)).2.2 (.str "k1") rfl rfl rfl⟩

/-! ### Claim C7 -/

/-- A token referencing a `kid` absent from the key set. -/
def fxTokWrongKid : Token :=
  ⟨true, true, some (.str "k2"), some (.str "RS256"), fxTdAccess, fun _ => true⟩

/-- C7: with the key store's memo already populated, a token whose `kid`
matches no key in the current key set fails with
`AuthenticationFailed("Forbidden")`, no upstream fetch is performed, and the
key store's memo/cache state is unchanged — the key set is not refreshed
mid-verification. -/
theorem kid_not_found_no_refresh (settings : Settings) (http : Except Unit JsonValue)
    (now : Int) (st : KeyStoreState) (tok : Token)
    (jwks : JsonValue) (ks : List JsonValue) (kv : JsonValue)
    (hm : st.memo = some jwks) (hmt : jwks.truthy = true)
    (hho : tok.headerOk = true)
    (hkid : tok.kid = some kv) (hkv : kv.truthy = true)
    (halg : optEqStr tok.alg "RS256" = true)
    (hkeys : jwksKeysList jwks = .ok ks)
    (hsel : selectKeys ks kv = .ok []) :
    (validate_jwt settings http now st tok).result = .error (.authFailed "Forbidden") ∧
    (validate_jwt settings http now st tok).state = st ∧
    (validate_jwt settings http now st tok).fetches = 0 := by
  have hjwks : get_jwks http st = ⟨.ok jwks, st, 0⟩ := by
    simp [get_jwks, hm, optTruthy, hmt]
  refine ⟨?_, ?_, ?_⟩ <;>
    simp [validate_jwt, hjwks, _get_public_key, hho, hkid, hkv, halg, hkeys, hsel]

/-- Witness for C7: a token with `kid = "k2"` against a key set holding only
`k1` fails closed with no fetch and unchanged state. -/
theorem kid_not_found_no_refresh_witness :
    (validate_jwt fxSettings (.ok fxJwks) 0 fxSt fxTokWrongKid).result =
      .error (.authFailed "Forbidden") ∧
    (validate_jwt fxSettings (.ok fxJwks) 0 fxSt fxTokWrongKid).state = fxSt ∧
    (validate_jwt fxSettings (.ok fxJwks) 0 fxSt fxTokWrongKid).fetches = 0 :=
  kid_not_found_no_refresh fxSettings (.ok fxJwks) 0 fxSt fxTokWrongKid
    fxJwks [fxJwk] (.str "k2") rfl rfl rfl rfl rfl rfl rfl rfl

/-! ### Claim C8 -/

/-- C8 counterexample: when the upstream fetch returns the JSON object
`\x7b"keys": []\x7d` — a key set containing no keys — `get_jwks` accepts it
as a valid result instead of failing: the emptiness check tests truthiness
of the whole payload dict, not of its `keys` list. -/
theorem empty_keyset_returned_valid_cx :
    (get_jwks (.ok fxEmptyKeys) ⟨none, none⟩).result = .ok fxEmptyKeys ∧
    jwksKeysList fxEmptyKeys = .ok [] :=
  ⟨rfl, rfl⟩

/-- C8 (amended): one `get_jwks` call performs at most one upstream fetch;
after a successful call, a second call performs no fetch and returns the
same payload unchanged; with an empty memo and cache the accessor fails
with the HTTP error when the fetch fails, and with the no-JWKs exception
when the fetched payload is falsy (e.g. `None` or an empty object) — but a
truthy payload is returned as valid even if its `keys` list is empty. -/
theorem get_jwks_fetch_spec (http : Except Unit JsonValue) (st : KeyStoreState) :
    (get_jwks http st).fetches ≤ 1 ∧
    (∀ s, (get_jwks http st).result = .ok s →
      s.truthy = true ∧
      get_jwks http (get_jwks http st).state = ⟨.ok s, (get_jwks http st).state, 0⟩) ∧
    (optTruthy st.memo = false → st.cache = none → http = .error () →
      (get_jwks http st).result = .error .http) ∧
    (∀ payload, optTruthy st.memo = false → st.cache = none → http = .ok payload →
      payload.truthy = false →
      (get_jwks http st).result = .error (.exc "We did not get any JWKs from Cognito.")) := by
  refine ⟨?_, ?_, ?_, ?_⟩
  · unfold get_jwks
    repeat' split
    all_goals simp
  · intro s hok
    rcases st with ⟨memo, cacheV⟩
    by_cases hm : optTruthy memo = true
    · rcases memo with _ | v
      · simp [optTruthy] at hm
      · have hv : v.truthy = true := by simpa [optTruthy] using hm
        have hg : get_jwks http ⟨some v, cacheV⟩ = ⟨.ok v, ⟨some v, cacheV⟩, 0⟩ := by
          simp [get_jwks, optTruthy, hv]
        rw [hg] at hok ⊢
        obtain rfl : v = s := by simpa using hok
        exact ⟨hv, by simp [get_jwks, optTruthy, hv]⟩
    · have hm' : optTruthy memo = false := by simpa using hm
      rcases cacheV with _ | cv
      · cases http with
        | error e =>
          have hg : get_jwks (.error e) ⟨memo, none⟩ = ⟨.error .http, ⟨memo, none⟩, 1⟩ := by
            simp [get_jwks, hm']
          rw [hg] at hok
          exact absurd hok (by simp)
        | ok payload =>
          by_cases hp : payload.truthy = true
          · have hg : get_jwks (.ok payload) ⟨memo, none⟩ =
                ⟨.ok payload, ⟨some payload, some payload⟩, 1⟩ := by
              simp [get_jwks, hm', hp]
            rw [hg] at hok ⊢
            obtain rfl : payload = s := by simpa using hok
            exact ⟨hp, by simp [get_jwks, optTruthy, hp]⟩
          · have hp' : payload.truthy = false := by simpa using hp
            have hg : get_jwks (.ok payload) ⟨memo, none⟩ =
                ⟨.error (.exc "We did not get any JWKs from Cognito."),
                  ⟨some payload, some payload⟩, 1⟩ := by
              simp [get_jwks, hm', hp']
            rw [hg] at hok
            exact absurd hok (by simp)
      · by_cases hc : cv.truthy = true
        · have hg : get_jwks http ⟨memo, some cv⟩ = ⟨.ok cv, ⟨some cv, some cv⟩, 0⟩ := by
            simp [get_jwks, hm', hc]
          rw [hg] at hok ⊢
          obtain rfl : cv = s := by simpa using hok
          exact ⟨hc, by simp [get_jwks, optTruthy, hc]⟩
        · have hc' : cv.truthy = false := by simpa using hc
          have hg : get_jwks http ⟨memo, some cv⟩ =
              ⟨.error (.exc "We did not get any JWKs from Cognito."),
                ⟨some cv, some cv⟩, 0⟩ := by
            simp [get_jwks, hm', hc']
          rw [hg] at hok
          exact absurd hok (by simp)
  · intro hm hc hh
    subst hh
    simp [get_jwks, hm, hc]
  · intro payload hm hc hh hp
    subst hh
    simp [get_jwks, hm, hc, hp]

/-- Witness for C8's amended theorem: a first call fetching a good key set,
then a second call that performs no fetch and returns the same set. -/
theorem get_jwks_fetch_spec_witness :
    (get_jwks (.ok fxJwks) ⟨none, none⟩).fetches ≤ 1 ∧
    fxJwks.truthy = true ∧
    get_jwks (.ok fxJwks) (get_jwks (.ok fxJwks) ⟨none, none⟩).state =
      ⟨.ok fxJwks, (get_jwks (.ok fxJwks) ⟨none, none⟩).state, 0⟩ :=
  ⟨(get_jwks_fetch_spec (.ok fxJwks) ⟨none, none⟩).1,
   ((get_jwks_fetch_spec (.ok fxJwks) ⟨none, none⟩).2.1 fxJwks rfl).1,
   ((get_jwks_fetch_spec (.ok fxJwks) ⟨none, none⟩).2.1 fxJwks rfl).2⟩

/-! ### Claim C9 -/

/-- C9: an absent/empty Authorization header (zero whitespace-separated
segments) makes `authenticate` return the pass-through outcome — no
principal, no error, no side effects; a two-segment header with a wrong
scheme, or any other segment count, fails with the `AuthenticationFailed`
that names the expected `bearer <token>` format. -/
theorem auth_header_gate (env : Env) (st : KeyStoreState) (req : Request) :
    (pySplit (get_authorization_header req) = [] →
      authenticate env st req = ⟨.ok none, st, 0, [], [], none⟩) ∧
    (∀ a b, pySplit (get_authorization_header req) = [a, b] → pyLower a ≠ "bearer" →
      (authenticate env st req).result =
        .error (.authFailed "Invalid auth header. Format should be 'bearer <token>'")) ∧
    (∀ parts, pySplit (get_authorization_header req) = parts → parts ≠ [] →
      parts.length ≠ 2 →
      (authenticate env st req).result =
        .error (.authFailed "Invalid auth header. Format should be 'bearer <token>'")) := by
  refine ⟨fun h0 => ?_, fun a b hab hne => ?_, fun parts hp hne hlen => ?_⟩
  · simp [authenticate, _get_bearer_token, _get_auth_token, h0]
  · have hb : (pyLower a == "bearer") = false := by simpa using hne
    simp [authenticate, _get_bearer_token, _get_auth_token, hab, hb, mkErr]
  · rcases parts with _ | ⟨x, _ | ⟨y, _ | ⟨z, rest⟩⟩⟩
    · exact absurd rfl hne
    · simp [authenticate, _get_bearer_token, _get_auth_token, hp, mkErr]
    · exact absurd rfl hlen
    · simp [authenticate, _get_bearer_token, _get_auth_token, hp, mkErr]

/-- Witness for C9: a request with no Authorization header passes through,
and one with a `Basic` scheme fails with the format error. -/
theorem auth_header_gate_witness :
    authenticate fxEnvAccess fxSt ⟨none⟩ = ⟨.ok none, fxSt, 0, [], [], none⟩ ∧
    (authenticate fxEnvAccess fxSt ⟨some "Basic abc"⟩).result =
      .error (.authFailed "Invalid auth header. Format should be 'bearer <token>'") :=
  ⟨(auth_header_gate fxEnvAccess fxSt ⟨none⟩).1 rfl,
   (auth_header_gate fxEnvAccess fxSt ⟨some "Basic abc"⟩).2.1 "Basic" "abc" rfl (by decide)⟩

/-! ### Claim C10 -/

/-- C10: the Authorization scheme comparison is case-insensitive — any
capitalization of "bearer" followed by exactly one token segment is
accepted, and the token segment is extracted identically. -/
theorem bearer_scheme_case_insensitive (req : Request) (a b : String)
    (h : pySplit (get_authorization_header req) = [a, b])
    (hl : pyLower a = "bearer") :
    _get_bearer_token req = .ok (some b) := by
  simp [_get_bearer_token, _get_auth_token, h, hl]

/-- Witness for C10 at the mixed-case scheme `BeArEr`. -/
theorem bearer_scheme_case_insensitive_witness :
    _get_bearer_token ⟨some "BeArEr xyz"⟩ = .ok (some "xyz") :=
  bearer_scheme_case_insensitive ⟨some "BeArEr xyz"⟩ "BeArEr" "xyz" rfl rfl

end SupportalAuth
